import Mathlib

/-!
Shallow embedding of the uploaded-dataset analysis core of `app.py`
(the Streamlit FAOSTAT explorer): column resolution (`pick_column`,
lines 378-385), the trend pipeline (lines 404-423), the policy
recommendation rules (lines 455-470), the keyword question answerer
(lines 477-502) and the report assembly (lines 504-518).

Modelling conventions:
* A dataframe cell is modelled by its `pd.to_numeric(..., errors="coerce")`
  image: `Option ℚ`, where `none` stands for a cell whose numeric coercion
  fails (NaN after coercion) and `some q` for a finite numeric cell.
  Exact rational arithmetic stands in for IEEE doubles; every quantity the
  claims mention is produced by field operations on the input cells.
* A dataset is an association list of column name to column cells.
* Python `None` and float NaN are both modelled by `Option.none` at the
  places where the source treats them identically (`x is not None and
  pd.notna(x)` guards); the distinction is kept where it matters
  (formatting a float NaN yields the string "nan", while formatting
  Python `None` with a float format specifier raises `TypeError`,
  modelled as `Option.none` of the whole computation).
* `pandas` standard deviation uses `ddof = 1` and skips NaN entries, but a
  `±inf` entry (a percent change over a zero previous value) poisons the
  result to NaN; the embedding tracks the finite percent changes and the
  presence of an infinite one explicitly.  Because a standard deviation is
  an irrational square root, the embedding carries the (rational) sample
  variance of the percent changes and compares it with squared thresholds:
  for `t ≥ 0`, `std * 100 > t ↔ var * 10000 > t ^ 2` and
  `std * 100 < t ↔ var * 10000 < t ^ 2`.
-/

/-- A dataframe column after numeric coercion: `none` is a NaN cell. -/
abbrev Col := List (Option ℚ)

/-- A dataframe: association list of column name to cells
(`upload_df` in the source). -/
abbrev Dataset := List (String × Col)

/-- The declared column names (`upload_df.columns`). -/
def colNames (d : Dataset) : List String := d.map Prod.fst

/-- Column access `upload_df[name]` for a name produced by the resolver. -/
def colOf (d : Dataset) (name : String) : Col :=
  match d.find? (fun c => c.1 == name) with
  | some c => c.2
  | none => []

/-- `pick_column` (app.py lines 378-382): first candidate, in
candidate-list order, that exactly (case-sensitively) matches a present
column name; `none` when no candidate matches.  Its only inputs are the
column-name list and the candidate list, so it cannot depend on cell
values. -/
def pick_column (columns : List String) (candidates : List String) : Option String :=
  match candidates with
  | [] => none
  | name :: rest => if name ∈ columns then some name else pick_column columns rest

/-- `year_col = pick_column(upload_df.columns, ["Year", "year", "YEAR"])`
(line 384). -/
def yearColOf (d : Dataset) : Option String :=
  pick_column (colNames d) ["Year", "year", "YEAR"]

/-- `value_col = pick_column(upload_df.columns, ["Value", "value", "VALUE"])`
(line 385). -/
def valueColOf (d : Dataset) : Option String :=
  pick_column (colNames d) ["Value", "value", "VALUE"]

/-- Lines 408-411: select the two columns, coerce both to numeric and
`dropna()`: keep exactly the rows where both coercions succeed. -/
def cleanRows (ys vs : Col) : List (ℚ × ℚ) :=
  (ys.zip vs).filterMap fun p =>
    match p.1, p.2 with
    | some y, some v => some (y, v)
    | _, _ => none

/-- Ascending sort of the year keys (`groupby` sorts its keys; the extra
`.sort_values(year_col)` on line 417 keeps that order). -/
def sortQ (l : List ℚ) : List ℚ := l.insertionSort (· ≤ ·)

/-- The distinct year keys of the cleaned rows, ascending. -/
def yearKeys (rows : List (ℚ × ℚ)) : List ℚ :=
  sortQ ((rows.map Prod.fst).dedup)

/-- Sum of the value field over the rows of one year group. -/
def sumAt (rows : List (ℚ × ℚ)) (y : ℚ) : ℚ :=
  ((rows.filter (fun r => r.1 == y)).map Prod.snd).sum

/-- `trend_group` (lines 414-418): group the cleaned rows by year, sum the
value column per group, sort ascending by year. -/
def trendSeries (rows : List (ℚ × ℚ)) : List (ℚ × ℚ) :=
  (yearKeys rows).map fun y => (y, sumAt rows y)

/-- Lines 404-418 as one pipeline stage: `trend_group` is `None` when a
column is unresolved (line 407 guard fails) or when the cleaned frame is
empty (line 413 guard fails), otherwise the grouped series. -/
def trendGroupOf (d : Dataset) : Option (List (ℚ × ℚ)) :=
  match yearColOf d, valueColOf d with
  | some yc, some vc =>
      let rows := cleanRows (colOf d yc) (colOf d vc)
      if rows.isEmpty then none else some (trendSeries rows)
  | _, _ => none

/-- Lines 419-422 applied to a grouped series: `change_pct` is
`(last - first) / first * 100` when the first aggregated value is nonzero,
and Python `None` (here `Option.none`) otherwise. -/
def changePct (g : List (ℚ × ℚ)) : Option ℚ :=
  match g with
  | [] => none
  | h :: t =>
      let first := h.2
      let last := (t.getLastD h).2
      if first = 0 then none else some ((last - first) / first * 100)

/-- The `change_pct` variable of the script (initialised `None` on line
405, assigned only inside the guarded trend branch). -/
def changePctOf (d : Dataset) : Option ℚ :=
  match trendGroupOf d with
  | some g => changePct g
  | none => none

/-- Consecutive pairs (previous, current) of the grouped value column:
the domain of `Series.pct_change()` (line 423). -/
def pctPairs (vs : List ℚ) : List (ℚ × ℚ) := vs.zip vs.tail

/-- The finite entries of `pct_change()`: `(cur - prev) / prev` for each
consecutive pair whose previous value is nonzero.  A zero previous value
yields NaN (`0/0`) or `±inf`, never a finite number. -/
def finitePct (vs : List ℚ) : List ℚ :=
  (pctPairs vs).filterMap fun p =>
    if p.1 = 0 then none else some ((p.2 - p.1) / p.1)

/-- Whether `pct_change()` contains a `±inf` entry (nonzero current over a
zero previous value); `Series.std` of data containing an infinity is NaN. -/
def hasInfPct (vs : List ℚ) : Bool :=
  (pctPairs vs).any fun p => decide (p.1 = 0) && decide (p.2 ≠ 0)

/-- Arithmetic mean of a rational list (junk `0` on the empty list, which
is guarded away at every use). -/
def meanQ (xs : List ℚ) : ℚ := xs.sum / (xs.length : ℚ)

/-- Sample variance with `ddof = 1`, the `pandas` default for
`Series.std`; junk on lists shorter than 2, which is guarded away. -/
def sampleVar (xs : List ℚ) : ℚ :=
  ((xs.map fun x => (x - meanQ xs) ^ 2).sum) / ((xs.length : ℚ) - 1)

/-- `pct_change().std()` is a (finite) real number exactly when no entry is
infinite and at least two entries are finite (`ddof = 1` returns NaN on
fewer than two non-NaN observations). -/
def volDefined (vs : List ℚ) : Bool :=
  !hasInfPct vs && decide (2 ≤ (finitePct vs).length)

/-- Line 423, `volatility = trend_group[value_col].pct_change().std() * 100`,
carried as the sample variance of the finite percent changes: the float
`volatility` equals `Real.sqrt var * 100` when this is `some var`, and is
NaN when this is `none`.  Comparisons with a nonnegative threshold `t`
translate to `var * 10000` versus `t ^ 2`. -/
def volVar (vs : List ℚ) : Option ℚ :=
  if volDefined vs then some (sampleVar (finitePct vs)) else none

/-- The `volatility` variable of the script (initialised `None` on line
406): `none` covers both Python `None` (trend branch not reached) and a
NaN standard deviation, the two cases the guard
`volatility is not None and pd.notna(volatility)` (lines 432, 466)
rejects identically. -/
def volVarOf (d : Dataset) : Option ℚ :=
  match trendGroupOf d with
  | some g => volVar (g.map Prod.snd)
  | none => none

/-- Line 458. -/
def sGrow : String := "Sustain growth by investing in productivity and market access."

/-- Line 460. -/
def sDecline : String := "Investigate drivers of decline and apply targeted support or reforms."

/-- Line 462. -/
def sStable : String := "Stabilize the sector with incremental improvements and risk monitoring."

/-- Line 464. -/
def sFallback : String := "Improve data coverage to enable trend-based decision-making."

/-- Line 468. -/
def sHighVol : String := "High volatility suggests need for buffers, insurance, or price stabilization."

/-- Line 470. -/
def sLowVol : String := "Low volatility indicates stable conditions; focus on efficiency gains."

/-- Lines 456-464: the growth/decline/stabilize rule when `change_pct` is
defined, the data-coverage fallback otherwise. -/
def baseRec (cp : Option ℚ) : String :=
  match cp with
  | some c => if 5 < c then sGrow else if c < -5 then sDecline else sStable
  | none => sFallback

/-- Lines 466-470: the volatility rule, fired only when `volatility` is
neither `None` nor NaN.  `volatility > 20` is `400 < var * 10000` and
`volatility < 5` is `var * 10000 < 25` (squared thresholds, see the
header). -/
def volRecs (vv : Option ℚ) : List String :=
  match vv with
  | some v =>
      if 400 < v * 10000 then [sHighVol]
      else if v * 10000 < 25 then [sLowVol]
      else []
  | none => []

/-- Lines 455-470: the recommendation list, base rule first, volatility
entry appended second when triggered. -/
def recommendations (cp vv : Option ℚ) : List String :=
  baseRec cp :: volRecs vv

/-- The recommendation list the script shows for a dataset. -/
def recsOf (d : Dataset) : List String :=
  recommendations (changePctOf d) (volVarOf d)

/-- Does `needle` occur at the head of `hay`? (character-list version). -/
def chStarts : List Char → List Char → Bool
  | [], _ => true
  | _ :: _, [] => false
  | a :: as, b :: bs => a == b && chStarts as bs

/-- Does `needle` occur anywhere inside `hay`? (character-list version). -/
def chInside (needle : List Char) : List Char → Bool
  | [] => chStarts needle []
  | c :: cs => chStarts needle (c :: cs) || chInside needle cs

/-- Python `kw in q` substring containment on strings. -/
def hasKw (q kw : String) : Bool := chInside kw.toList q.toList

/-- Python `question.lower()` (line 478), character by character; ASCII
letters are the only characters the keyword rules ever test. -/
def strLower (s : String) : String := String.mk (s.toList.map Char.toLower)

/-- The valid (non-NaN) entries of a coerced column; `pandas` aggregates
skip NaN silently. -/
def validVals (xs : Col) : List ℚ := xs.filterMap id

/-- `Series.sum()`: NaN entries are skipped and the all-NaN sum is `0.0`. -/
def seriesSum (xs : Col) : ℚ := (validVals xs).sum

/-- `Series.mean()`: `none` is the NaN result on an all-NaN column. -/
def seriesMean (xs : Col) : Option ℚ :=
  let v := validVals xs
  if v.isEmpty then none else some (v.sum / (v.length : ℚ))

/-- `Series.max()`: `none` is the NaN result on an all-NaN column. -/
def seriesMax (xs : Col) : Option ℚ :=
  (validVals xs).foldl (fun a x =>
    match a with
    | none => some x
    | some m => some (max m x)) none

/-- `Series.min()`: `none` is the NaN result on an all-NaN column. -/
def seriesMin (xs : Col) : Option ℚ :=
  (validVals xs).foldl (fun a x =>
    match a with
    | none => some x
    | some m => some (min m x)) none

/-- Round half to even on the integers, the tie-breaking rule of Python
float formatting. -/
def rhe (q : ℚ) : ℤ :=
  let f := ⌊q⌋
  let r := q - (f : ℚ)
  if r < 1 / 2 then f
  else if 1 / 2 < r then f + 1
  else if f % 2 = 0 then f else f + 1

/-- Python `int()` on a float: truncation toward zero. -/
def truncInt (q : ℚ) : ℤ := if 0 ≤ q then ⌊q⌋ else ⌈q⌉

/-- Insert a thousands separator after every third digit of a reversed
digit list. -/
def commaRev : List Char → Nat → List Char
  | [], _ => []
  | c :: cs, i =>
      if i % 3 == 0 && !(i == 0) then ',' :: c :: commaRev cs (i + 1)
      else c :: commaRev cs (i + 1)

/-- Decimal digits of a natural number with thousands separators, as in
Python `f"{n:,}"`. -/
def commaNat (n : Nat) : String :=
  String.mk ((commaRev ((toString n).toList.reverse) 0).reverse)

/-- Two-digit zero-padded fractional part. -/
def pad2 (n : Nat) : String := if n < 10 then "0" ++ toString n else toString n

/-- Python `f"{x:,.2f}"` on a possibly-NaN float: two decimals, thousands
separators in the integer part; NaN prints as "nan" (it does not raise). -/
def fmtComma2 (x : Option ℚ) : String :=
  match x with
  | none => "nan"
  | some q =>
      let n := rhe (q * 100)
      (if n < 0 then "-" else "") ++ commaNat (n.natAbs / 100) ++ "." ++ pad2 (n.natAbs % 100)

/-- Python `f"{x:.1f}"` on a finite float: one decimal, no separators. -/
def fmtF1 (q : ℚ) : String :=
  let n := rhe (q * 10)
  (if n < 0 then "-" else "") ++ toString (n.natAbs / 10) ++ "." ++ toString (n.natAbs % 10)

/-- Line 479: the default capability answer. -/
def defaultAnswer : String :=
  "I can summarize totals, averages, min/max, or trend if Year/Value exist."

/-- Lines 480-489: the value-aggregate rules.  When the value column is
unresolved, or no keyword matches, the answer keeps the default. -/
def valueAnswer (d : Dataset) (ql : String) : String :=
  match valueColOf d with
  | none => defaultAnswer
  | some vc =>
      let vs := colOf d vc
      if hasKw ql "average" || hasKw ql "mean" then
        "Average " ++ vc ++ ": " ++ fmtComma2 (seriesMean vs)
      else if hasKw ql "total" || hasKw ql "sum" then
        "Total " ++ vc ++ ": " ++ fmtComma2 (some (seriesSum vs))
      else if hasKw ql "max" || hasKw ql "highest" then
        "Max " ++ vc ++ ": " ++ fmtComma2 (seriesMax vs)
      else if hasKw ql "min" || hasKw ql "lowest" then
        "Min " ++ vc ++ ": " ++ fmtComma2 (seriesMin vs)
      else defaultAnswer

/-- Lines 491-493: the trend rule overwrites the previous answer when the
question mentions "trend" and a trend series exists.  The f-string
formats `change_pct` with `:.1f`; when `change_pct` is Python `None`
(first-year aggregate zero) that format call raises `TypeError`,
modelled as `none` of the whole answer computation. -/
def trendAnswer (d : Dataset) (ql : String) (prev : String) : Option String :=
  if hasKw ql "trend" && (trendGroupOf d).isSome then
    match changePctOf d with
    | some c =>
        some ("Overall trend is " ++ (if 0 ≤ c then "increasing" else "decreasing") ++
          " with change of " ++ fmtF1 c ++ "%.")
    | none => none
  else some prev

/-- Lines 495-500: the year rule overwrites the previous answer when the
question mentions "year" and a year column is resolved.  `int()` of the
NaN max/min of an all-NaN year column raises `ValueError`, modelled as
`none`. -/
def yearAnswer (d : Dataset) (ql : String) (prev : String) : Option String :=
  match yearColOf d with
  | some yc =>
      if hasKw ql "year" then
        let ys := colOf d yc
        if hasKw ql "latest" || hasKw ql "max" then
          match seriesMax ys with
          | some m => some ("Latest year in data: " ++ toString (truncInt m))
          | none => none
        else if hasKw ql "earliest" || hasKw ql "min" then
          match seriesMin ys with
          | some m => some ("Earliest year in data: " ++ toString (truncInt m))
          | none => none
        else some prev
      else some prev
  | none => some prev

/-- Lines 477-502: the question answerer.  The question is lowercased
once; the three rule groups run in source order, each overwriting the
running answer; an exception in an earlier group (`none`) aborts the
later groups exactly as Python control flow does. -/
def answer (d : Dataset) (question : String) : Option String :=
  let ql := strLower question
  let a1 := valueAnswer d ql
  match trendAnswer d ql a1 with
  | none => none
  | some a2 => yearAnswer d ql a2

/-- The structured outputs of one full analysis pass. -/
structure Analysis where
  year_col : Option String
  value_col : Option String
  trend_group : Option (List (ℚ × ℚ))
  change_pct : Option ℚ
  vol_var : Option ℚ
  recs : List String
  qa : Option String

/-- One full analysis pass (lines 373-518) over an uploaded dataset and a
question, returning the dataset it leaves behind together with every
computed output.  The source never writes to `upload_df`: line 408 takes
an explicit `.copy()` before the in-place coercions of lines 409-411,
and `pd.to_numeric` (lines 481, 496), `dropna`, `groupby` and
`sort_values` all return fresh objects; hence the pass threads the input
dataset through unchanged. -/
def runAnalysis (d : Dataset) (question : String) : Dataset × Analysis :=
  (d,
   { year_col := yearColOf d
     value_col := valueColOf d
     trend_group := trendGroupOf d
     change_pct := changePctOf d
     vol_var := volVarOf d
     recs := recsOf d
     qa := answer d question })

/-! ### Helper lemmas -/

theorem sortQ_perm (l : List ℚ) : List.Perm (sortQ l) l :=
  List.perm_insertionSort _ l

theorem sortQ_sorted (l : List ℚ) : (sortQ l).Sorted (· ≤ ·) :=
  List.sorted_insertionSort _ l

theorem yearKeys_nodup (rows : List (ℚ × ℚ)) : (yearKeys rows).Nodup :=
  (sortQ_perm _).nodup_iff.2 (List.nodup_dedup _)

theorem yearKeys_sorted_lt (rows : List (ℚ × ℚ)) : (yearKeys rows).Sorted (· < ·) :=
  (sortQ_sorted _).lt_of_le (yearKeys_nodup rows)

theorem mem_yearKeys {rows : List (ℚ × ℚ)} {y : ℚ} :
    y ∈ yearKeys rows ↔ ∃ r ∈ rows, r.1 = y := by
  unfold yearKeys
  rw [(sortQ_perm _).mem_iff, List.mem_dedup, List.mem_map]

theorem trendSeries_pairwise (rows : List (ℚ × ℚ)) :
    (trendSeries rows).Pairwise (fun a b => a.1 < b.1) := by
  unfold trendSeries
  rw [List.pairwise_map]
  simpa using yearKeys_sorted_lt rows

theorem mem_trendSeries {rows : List (ℚ × ℚ)} {y v : ℚ} :
    (y, v) ∈ trendSeries rows ↔ ((∃ r ∈ rows, r.1 = y) ∧ v = sumAt rows y) := by
  unfold trendSeries
  rw [List.mem_map]
  constructor
  · rintro ⟨a, ha, heq⟩
    rw [Prod.mk.injEq] at heq
    obtain ⟨rfl, rfl⟩ := heq
    exact ⟨mem_yearKeys.1 ha, rfl⟩
  · rintro ⟨hy, rfl⟩
    exact ⟨y, mem_yearKeys.2 hy, rfl⟩

theorem trendSeries_c1_example :
    trendSeries (cleanRows [some 2000, some 2000, some 2001] [some 10, some 20, some 15]) =
      [(2000, 30), (2001, 15)] := by
  have h : yearKeys (cleanRows [some 2000, some 2000, some 2001] [some 10, some 20, some 15]) =
      [2000, 2001] := rfl
  have e1 : ((cleanRows [some 2000, some 2000, some 2001] [some 10, some 20, some 15]).filter
      (fun r => r.1 == (2000 : ℚ))).map Prod.snd = [10, 20] := rfl
  have e2 : ((cleanRows [some 2000, some 2000, some 2001] [some 10, some 20, some 15]).filter
      (fun r => r.1 == (2001 : ℚ))).map Prod.snd = [15] := rfl
  show (yearKeys _).map _ = _
  rw [h]
  simp only [List.map_cons, List.map_nil, sumAt, e1, e2, List.sum_cons, List.sum_nil]
  norm_num

/-! ### Claim theorems -/

/-- C1: for every pair of coerced year/value columns the trend series is
strictly ascending in the year, and its entries are exactly the distinct
years of the rows surviving coercion-and-drop, each paired with the sum of
the surviving values of that year; in particular year column
`[2000, 2000, 2001]` with value column `[10, 20, 15]` yields the series
`[(2000, 30), (2001, 15)]` with `changePercent = -50`. -/
theorem c1_trend_series (ys vs : Col) :
    (trendSeries (cleanRows ys vs)).Pairwise (fun a b => a.1 < b.1)
    ∧ (∀ y v, ((y, v) ∈ trendSeries (cleanRows ys vs) ↔
        ((∃ r ∈ cleanRows ys vs, r.1 = y) ∧ v = sumAt (cleanRows ys vs) y)))
    ∧ trendSeries (cleanRows [some 2000, some 2000, some 2001] [some 10, some 20, some 15]) =
        [(2000, 30), (2001, 15)]
    ∧ changePct (trendSeries (cleanRows [some 2000, some 2000, some 2001]
        [some 10, some 20, some 15])) = some (-50) := by
  refine ⟨trendSeries_pairwise _, fun y v => mem_trendSeries, trendSeries_c1_example, ?_⟩
  rw [trendSeries_c1_example]
  norm_num [changePct]

/-- C1 witness: the concrete grouped-and-summed series of the claim. -/
theorem c1_trend_series_witness :
    trendSeries (cleanRows [some 2000, some 2000, some 2001] [some 10, some 20, some 15]) =
      [(2000, 30), (2001, 15)] :=
  (c1_trend_series [] []).2.2.1

/-- C2: on a nonempty trend series, `change_pct` is `None` (an explicit
absent value, never a number) when the first aggregated value is zero, and
equals `(last - first) / first * 100` when it is nonzero. -/
theorem c2_change_pct (h : ℚ × ℚ) (t : List (ℚ × ℚ)) :
    (h.2 = 0 → changePct (h :: t) = none)
    ∧ (h.2 ≠ 0 → changePct (h :: t) = some (((t.getLastD h).2 - h.2) / h.2 * 100)) := by
  constructor <;> intro hz
  · simp [changePct, hz]
  · simp [changePct, hz]

/-- C2 witness: a zero first-year aggregate gives an absent change, and
`[(2000, 30), (2001, 15)]` gives `-50`. -/
theorem c2_change_pct_witness :
    changePct [((2000 : ℚ), (0 : ℚ)), (2001, 5)] = none
    ∧ changePct [((2000 : ℚ), (30 : ℚ)), (2001, 15)] = some (-50) := by
  constructor
  · exact (c2_change_pct (2000, 0) [(2001, 5)]).1 rfl
  · have h := (c2_change_pct (2000, 30) [(2001, 15)]).2 (by norm_num)
    rw [h]
    norm_num

theorem finitePct_length_le (vs : List ℚ) : (finitePct vs).length ≤ vs.length - 1 :=
  calc (finitePct vs).length ≤ (pctPairs vs).length := List.length_filterMap_le _ _
    _ = min vs.length vs.tail.length := by unfold pctPairs; exact List.length_zip _ _
    _ ≤ vs.tail.length := min_le_right _ _
    _ = vs.length - 1 := List.length_tail _

theorem volVar_none_of_short (vs : List ℚ) (h : vs.length ≤ 2) : volVar vs = none := by
  have h1 : (finitePct vs).length ≤ 1 := le_trans (finitePct_length_le vs) (by omega)
  have h2 : volDefined vs = false := by
    unfold volDefined
    have h3 : ¬ (2 ≤ (finitePct vs).length) := by omega
    simp [h3]
  simp [volVar, h2]

theorem finitePct_of_nonzero (vs : List ℚ) (h : ∀ x ∈ vs.dropLast, x ≠ 0) :
    hasInfPct vs = false ∧ (finitePct vs).length = vs.length - 1 := by
  induction vs with
  | nil => simp [hasInfPct, finitePct, pctPairs]
  | cons a t ih =>
    cases t with
    | nil => simp [hasInfPct, finitePct, pctPairs]
    | cons b t2 =>
      have hd : (a :: b :: t2).dropLast = a :: (b :: t2).dropLast := rfl
      have ha : a ≠ 0 := h a (by rw [hd]; exact List.mem_cons_self a _)
      have hrest : ∀ x ∈ (b :: t2).dropLast, x ≠ 0 := by
        intro x hx
        exact h x (by rw [hd]; exact List.mem_cons_of_mem a hx)
      obtain ⟨ih1, ih2⟩ := ih hrest
      have hp : pctPairs (a :: b :: t2) = (a, b) :: pctPairs (b :: t2) := rfl
      constructor
      · unfold hasInfPct at ih1 ⊢
        rw [hp, List.any_cons, ih1]
        simp [ha]
      · unfold finitePct at ih2 ⊢
        rw [hp, List.filterMap_cons]
        simp only [ha, if_false]
        simp only [List.length_cons] at ih2 ⊢
        omega

theorem volVar_isSome_of_long (vs : List ℚ) (h3 : 3 ≤ vs.length)
    (hnz : ∀ x ∈ vs.dropLast, x ≠ 0) : (volVar vs).isSome = true := by
  obtain ⟨h1, h2⟩ := finitePct_of_nonzero vs hnz
  have hdef : volDefined vs = true := by
    unfold volDefined
    rw [h1, h2]
    simp
    omega
  simp [volVar, hdef]

/-- C3 counterexample: a dataset whose trend series has exactly two points,
`[(2000, 10), (2001, 15)]`, for which `volatility` is NaN (`pct_change`
leaves a single valid observation and the `ddof = 1` standard deviation of
one observation is NaN), refuting "a real number for every trend series of
length ≥ 2". -/
theorem c3_volatility_len2_counterexample :
    trendGroupOf [("Year", [some 2000, some 2001]), ("Value", [some 10, some 15])] =
      some [(2000, 10), (2001, 15)]
    ∧ volVarOf [("Year", [some 2000, some 2001]), ("Value", [some 10, some 15])] = none := by
  have hg : trendGroupOf [("Year", [some 2000, some 2001]), ("Value", [some 10, some 15])] =
      some [(2000, 10), (2001, 15)] := by
    have h : yearColOf [("Year", [some 2000, some 2001]), ("Value", [some 10, some 15])] =
        some "Year" := rfl
    have h2 : valueColOf [("Year", [some 2000, some 2001]), ("Value", [some 10, some 15])] =
        some "Value" := rfl
    have h3 : cleanRows (colOf [("Year", [some 2000, some 2001]), ("Value", [some 10, some 15])] "Year")
        (colOf [("Year", [some 2000, some 2001]), ("Value", [some 10, some 15])] "Value") =
        [(2000, 10), (2001, 15)] := rfl
    have h4 : yearKeys [((2000 : ℚ), (10 : ℚ)), (2001, 15)] = [2000, 2001] := rfl
    have e1 : (([((2000 : ℚ), (10 : ℚ)), (2001, 15)]).filter
        (fun r => r.1 == (2000 : ℚ))).map Prod.snd = [10] := rfl
    have e2 : (([((2000 : ℚ), (10 : ℚ)), (2001, 15)]).filter
        (fun r => r.1 == (2001 : ℚ))).map Prod.snd = [15] := rfl
    rw [trendGroupOf, h, h2]
    simp only [h3, List.isEmpty_cons, trendSeries, h4, List.map_cons, List.map_nil, sumAt,
      e1, e2, List.sum_cons, List.sum_nil]
    norm_num
  refine ⟨hg, ?_⟩
  rw [volVarOf, hg]
  exact volVar_none_of_short _ (by rfl)

/-- C3 (amended): `volatility` is the `ddof = 1` standard deviation of the
consecutive percent changes of the trend series times 100; it is undefined
(NaN) for every trend series of length at most 2, and is a real number for
every series of length at least 3 all of whose aggregated values except
possibly the last are nonzero. -/
theorem c3_volatility_defined (vs : List ℚ) :
    (vs.length ≤ 2 → volVar vs = none)
    ∧ (3 ≤ vs.length → (∀ x ∈ vs.dropLast, x ≠ 0) → (volVar vs).isSome = true) := by
  constructor
  · exact volVar_none_of_short vs
  · exact volVar_isSome_of_long vs

/-- C3 witness: a length-1 series has undefined volatility, and the series
`[100, 110, 121]` of length 3 has a defined one. -/
theorem c3_volatility_defined_witness :
    volVar [(10 : ℚ)] = none ∧ (volVar [(100 : ℚ), 110, 121]).isSome = true := by
  constructor
  · exact (c3_volatility_defined [10]).1 (by norm_num)
  · refine (c3_volatility_defined [100, 110, 121]).2 (by norm_num) ?_
    intro x hx
    have hd : ([(100 : ℚ), 110, 121]).dropLast = [100, 110] := rfl
    rw [hd] at hx
    rcases List.mem_cons.1 hx with h | h
    · rw [h]; norm_num
    · rcases List.mem_cons.1 h with h2 | h2
      · rw [h2]; norm_num
      · exact absurd h2 (List.not_mem_nil x)

theorem pick_column_eq_find (columns candidates : List String) :
    pick_column columns candidates = candidates.find? (fun n => decide (n ∈ columns)) := by
  induction candidates with
  | nil => rfl
  | cons a l ih =>
    by_cases hm : a ∈ columns
    · simp [pick_column, hm, List.find?_cons]
    · simp [pick_column, hm, List.find?_cons, ih]

theorem pick_column_none_iff (columns candidates : List String) :
    pick_column columns candidates = none ↔ ∀ n ∈ candidates, n ∉ columns := by
  induction candidates with
  | nil => simp [pick_column]
  | cons a l ih =>
    by_cases hm : a ∈ columns
    · simp [pick_column, hm]
    · simp [pick_column, hm, ih]

theorem pick_column_some_mem (columns candidates : List String) (n : String)
    (h : pick_column columns candidates = some n) : n ∈ candidates ∧ n ∈ columns := by
  induction candidates with
  | nil => simp [pick_column] at h
  | cons a l ih =>
    by_cases hm : a ∈ columns
    · simp [pick_column, hm] at h
      rw [h] at hm
      simp [h, hm]
    · simp [pick_column, hm] at h
      obtain ⟨h1, h2⟩ := ih h
      simp [h1, h2]

/-- C8: the column resolver returns the first candidate, in candidate-list
order, whose exact (case-sensitive) string occurs among the column names
(`List.find?` over the candidates), returns `none` exactly when no
candidate occurs, and any returned name is both a candidate and a present
column; it takes only the column-name list and the candidate list, so the
data values cannot influence it. -/
theorem c8_pick_column (columns candidates : List String) :
    pick_column columns candidates = candidates.find? (fun n => decide (n ∈ columns))
    ∧ (pick_column columns candidates = none ↔ ∀ n ∈ candidates, n ∉ columns)
    ∧ (∀ n, pick_column columns candidates = some n → n ∈ candidates ∧ n ∈ columns) :=
  ⟨pick_column_eq_find columns candidates, pick_column_none_iff columns candidates,
    fun n => pick_column_some_mem columns candidates n⟩

/-- C8 witness: on columns `["Date", "year"]` the resolver returns the
candidate `"year"` (skipping the non-matching `"Year"`), which is both a
candidate and a present column. -/
theorem c8_pick_column_witness :
    "year" ∈ (["Year", "year", "YEAR"] : List String)
    ∧ "year" ∈ (["Date", "year"] : List String) :=
  (c8_pick_column ["Date", "year"] ["Year", "year", "YEAR"]).2.2 "year" rfl

/-- C10: for every pair of metric inputs the recommendation list is the
base (growth/decline/stabilize or fallback) entry followed by the
volatility entries, of which there is at most one; its length is between 1
and 2. -/
theorem c10_recommendation_shape (cp vv : Option ℚ) :
    1 ≤ (recommendations cp vv).length
    ∧ (recommendations cp vv).length ≤ 2
    ∧ (recommendations cp vv).head? = some (baseRec cp)
    ∧ (recommendations cp vv).tail = volRecs vv
    ∧ (volRecs vv).length ≤ 1 := by
  have hv : (volRecs vv).length ≤ 1 := by
    unfold volRecs
    match vv with
    | none => simp
    | some v =>
      by_cases h1 : 400 < v * 10000
      · simp [h1]
      · by_cases h2 : v * 10000 < 25
        · simp [h1, h2]
        · simp [h1, h2]
  refine ⟨by simp [recommendations], ?_, rfl, rfl, hv⟩
  simp only [recommendations, List.length_cons]
  omega

/-- C5: with `change_pct` defined the recommendation list starts with the
growth-sustaining advice when the change exceeds 5, the decline-mitigation
advice when it is below -5 and the stabilization advice on `[-5, 5]`; a
volatility entry is appended second exactly when the volatility is defined
(not `None`, not NaN) and, via squared thresholds on its variance `v`
(`volatility > 20 ↔ 400 < v * 10000`, `volatility < 5 ↔ v * 10000 < 25`),
the buffering advice fires above 20, the efficiency advice below 5, and
nothing fires on `[5, 20]`. -/
theorem c5_recommendation_rules (c v : ℚ) (vv : Option ℚ) :
    (5 < c → (recommendations (some c) vv).head? = some sGrow)
    ∧ (c < -5 → (recommendations (some c) vv).head? = some sDecline)
    ∧ (-5 ≤ c → c ≤ 5 → (recommendations (some c) vv).head? = some sStable)
    ∧ recommendations (some c) none = [baseRec (some c)]
    ∧ (400 < v * 10000 → recommendations (some c) (some v) = [baseRec (some c), sHighVol])
    ∧ (v * 10000 < 25 → recommendations (some c) (some v) = [baseRec (some c), sLowVol])
    ∧ (25 ≤ v * 10000 → v * 10000 ≤ 400 → recommendations (some c) (some v) = [baseRec (some c)]) := by
  refine ⟨?_, ?_, ?_, ?_, ?_, ?_, ?_⟩
  · intro h
    simp [recommendations, baseRec, h]
  · intro h
    have h1 : ¬ 5 < c := by linarith
    simp [recommendations, baseRec, h, h1]
  · intro h1 h2
    have h3 : ¬ 5 < c := by linarith
    have h4 : ¬ c < -5 := by linarith
    simp [recommendations, baseRec, h3, h4]
  · simp [recommendations, volRecs]
  · intro h
    simp [recommendations, volRecs, h]
  · intro h
    have h1 : ¬ 400 < v * 10000 := by linarith
    simp [recommendations, volRecs, h, h1]
  · intro h1 h2
    have h3 : ¬ 400 < v * 10000 := by linarith
    have h4 : ¬ v * 10000 < 25 := by linarith
    simp [recommendations, volRecs, h3, h4]

/-- C5 witness: a 10 percent change with variance 1 (volatility 100) gives
the growth advice followed by the buffering advice. -/
theorem c5_recommendation_rules_witness :
    (recommendations (some 10) none).head? = some sGrow
    ∧ recommendations (some 10) (some 1) = [baseRec (some 10), sHighVol] := by
  constructor
  · exact (c5_recommendation_rules 10 1 none).1 (by norm_num)
  · exact (c5_recommendation_rules 10 1 (some 1)).2.2.2.2.1 (by norm_num)

/-- C6: when the value column resolves but the year column does not, the
trend stage is skipped (`trend_group`, `change_pct` and `volatility` all
stay `None`) and the recommendation list is exactly the single
data-coverage fallback with no volatility entry; moreover for every
dataset the recommendation list is nonempty. -/
theorem c6_fallback_recommendation (d : Dataset) (hv : (valueColOf d).isSome = true)
    (hy : yearColOf d = none) :
    (valueColOf d).isSome = true
    ∧ trendGroupOf d = none
    ∧ changePctOf d = none
    ∧ volVarOf d = none
    ∧ recsOf d = [sFallback]
    ∧ ∀ d2 : Dataset, recsOf d2 ≠ [] := by
  have hg : trendGroupOf d = none := by
    rw [trendGroupOf, hy]
  have hc : changePctOf d = none := by
    rw [changePctOf, hg]
  have hvv : volVarOf d = none := by
    rw [volVarOf, hg]
  refine ⟨hv, hg, hc, hvv, ?_, ?_⟩
  · rw [recsOf, hc, hvv]
    rfl
  · intro d2
    simp [recsOf, recommendations]

/-- C6 witness: the one-column dataset `[("Value", [1])]` resolves a value
column, has no year column, and receives exactly the fallback
recommendation. -/
theorem c6_fallback_recommendation_witness :
    recsOf [("Value", [some (1 : ℚ)])] = [sFallback] :=
  (c6_fallback_recommendation [("Value", [some (1 : ℚ)])] rfl rfl).2.2.2.2.1

/-- C9: a full analysis pass (column resolution, trend computation,
recommendations, query answering, report assembly) returns the dataset it
was given, unchanged: the source reads `upload_df` only through
`.copy()` (line 408) and through `pd.to_numeric`, `dropna`, `groupby` and
`sort_values` calls that return fresh objects (lines 409-418, 481, 496),
so the pass is a pure function of the dataset. -/
theorem c9_dataset_read_only (d : Dataset) (question : String) :
    (runAnalysis d question).1 = d := rfl

theorem trendGroup_bug_example :
    trendGroupOf [("Year", [some 2000, some 2001]), ("Value", [some 0, some 5])] =
      some [(2000, 0), (2001, 5)] := by
  have h : yearColOf [("Year", [some 2000, some 2001]), ("Value", [some 0, some 5])] =
      some "Year" := rfl
  have h2 : valueColOf [("Year", [some 2000, some 2001]), ("Value", [some 0, some 5])] =
      some "Value" := rfl
  have h3 : cleanRows (colOf [("Year", [some 2000, some 2001]), ("Value", [some 0, some 5])] "Year")
      (colOf [("Year", [some 2000, some 2001]), ("Value", [some 0, some 5])] "Value") =
      [(2000, 0), (2001, 5)] := rfl
  have h4 : yearKeys [((2000 : ℚ), (0 : ℚ)), (2001, 5)] = [2000, 2001] := rfl
  have e1 : (([((2000 : ℚ), (0 : ℚ)), (2001, 5)]).filter
      (fun r => r.1 == (2000 : ℚ))).map Prod.snd = [0] := rfl
  have e2 : (([((2000 : ℚ), (0 : ℚ)), (2001, 5)]).filter
      (fun r => r.1 == (2001 : ℚ))).map Prod.snd = [5] := rfl
  rw [trendGroupOf, h, h2]
  simp only [h3, List.isEmpty_cons, trendSeries, h4, List.map_cons, List.map_nil, sumAt,
    e1, e2, List.sum_cons, List.sum_nil]
  norm_num

/-- C4: the query answerer does not always return a string: on the dataset
with year column `[2000, 2001]` and value column `[0, 5]` the first-year
aggregate is `0`, so `change_pct` is `None`, and the question `"trend"`
reaches the f-string `f"... {change_pct:.1f}%."` (line 493), which raises
`TypeError` on `None` instead of propagating the absent value; the raised
exception is the `none` result of the embedded answerer. -/
theorem c4_trend_question_raises :
    trendGroupOf [("Year", [some 2000, some 2001]), ("Value", [some 0, some 5])] =
      some [(2000, 0), (2001, 5)]
    ∧ changePctOf [("Year", [some 2000, some 2001]), ("Value", [some 0, some 5])] = none
    ∧ answer [("Year", [some 2000, some 2001]), ("Value", [some 0, some 5])] "trend" = none := by
  have hg := trendGroup_bug_example
  have hc : changePctOf [("Year", [some 2000, some 2001]), ("Value", [some 0, some 5])] =
      none := by
    rw [changePctOf, hg]
    simp [changePct]
  refine ⟨hg, hc, ?_⟩
  have hq : strLower "trend" = "trend" := rfl
  show (match trendAnswer [("Year", [some 2000, some 2001]), ("Value", [some 0, some 5])]
      (strLower "trend") (valueAnswer [("Year", [some 2000, some 2001]),
      ("Value", [some 0, some 5])] (strLower "trend")) with
    | none => none
    | some a2 => yearAnswer [("Year", [some 2000, some 2001]), ("Value", [some 0, some 5])]
        (strLower "trend") a2) = none
  rw [hq]
  have hk : hasKw "trend" "trend" = true := rfl
  have hta : trendAnswer [("Year", [some 2000, some 2001]), ("Value", [some 0, some 5])]
      "trend" (valueAnswer [("Year", [some 2000, some 2001]), ("Value", [some 0, some 5])]
      "trend") = none := by
    unfold trendAnswer
    rw [hg, hc]
    simp [hk]
  rw [hta]

theorem answer_avg_example :
    answer [("Value", [some 10, some 20, some 30])] "What is the average value?" =
      some "Average Value: 20.00" := by
  have hm : seriesMean (colOf [("Value", [some 10, some 20, some 30])] "Value") = some 20 := by
    have h : validVals (colOf [("Value", [some 10, some 20, some 30])] "Value") =
        [10, 20, 30] := rfl
    simp only [seriesMean, h]
    norm_num
  have hf : fmtComma2 (some (20 : ℚ)) = "20.00" := by
    have h : rhe ((20 : ℚ) * 100) = 2000 := by norm_num [rhe]
    simp only [fmtComma2, h]
    rfl
  have hv : valueColOf [("Value", [some 10, some 20, some 30])] = some "Value" := rfl
  have hq : strLower "What is the average value?" = "what is the average value?" := rfl
  show (match trendAnswer [("Value", [some 10, some 20, some 30])]
      (strLower "What is the average value?") (valueAnswer [("Value", [some 10, some 20, some 30])]
      (strLower "What is the average value?")) with
    | none => none
    | some a2 => yearAnswer [("Value", [some 10, some 20, some 30])]
        (strLower "What is the average value?") a2) = _
  rw [hq]
  have hva : valueAnswer [("Value", [some 10, some 20, some 30])] "what is the average value?" =
      "Average Value: 20.00" := by
    rw [valueAnswer, hv]
    simp only [hm, hf]
    rfl
  rw [hva]
  rfl

theorem answer_latest_example :
    answer [("Year", [some 1999, some 2020, some 2005])] "latest year" =
      some "Latest year in data: 2020" := by
  have hq : strLower "latest year" = "latest year" := rfl
  show (match trendAnswer [("Year", [some 1999, some 2020, some 2005])] (strLower "latest year")
      (valueAnswer [("Year", [some 1999, some 2020, some 2005])] (strLower "latest year")) with
    | none => none
    | some a2 => yearAnswer [("Year", [some 1999, some 2020, some 2005])]
        (strLower "latest year") a2) = _
  rw [hq]
  have hsm : seriesMax (colOf [("Year", [some 1999, some 2020, some 2005])] "Year") =
      some 2020 := by
    have h : validVals (colOf [("Year", [some 1999, some 2020, some 2005])] "Year") =
        [1999, 2020, 2005] := rfl
    simp only [seriesMax, h, List.foldl]
    norm_num
  have hva : valueAnswer [("Year", [some 1999, some 2020, some 2005])] "latest year" =
      defaultAnswer := rfl
  have hta : trendAnswer [("Year", [some 1999, some 2020, some 2005])] "latest year"
      defaultAnswer = some defaultAnswer := rfl
  rw [hva, hta]
  show yearAnswer [("Year", [some 1999, some 2020, some 2005])] "latest year" defaultAnswer = _
  rw [yearAnswer]
  have hy : yearColOf [("Year", [some 1999, some 2020, some 2005])] = some "Year" := rfl
  rw [hy]
  simp only [hsm]
  have ht : truncInt (2020 : ℚ) = 2020 := by norm_num [truncInt]
  rw [ht]
  rfl

/-- C7: keyword matching is on the lowercased question, and the rules run
in the fixed order value-aggregates, trend, year, with a later applicable
rule overwriting an earlier answer: whenever the year rule applies
("year" plus "latest" present, year column resolved, year maximum not NaN)
and the trend rule does not abort the pass, the answer is the year rule's,
whatever the value rules matched; "What is the average value?" over value
column `[10, 20, 30]` answers with "20.00" inside the string, "latest
year" over year column `[1999, 2020, 2005]` answers with "2020" inside the
string, and a question matching no rule gets the default capability
string. -/
theorem c7_query_precedence (d : Dataset) (q : String) (yc : String) (m : ℚ) :
    answer [("Value", [some 10, some 20, some 30])] "What is the average value?" =
      some "Average Value: 20.00"
    ∧ answer [("Year", [some 1999, some 2020, some 2005])] "latest year" =
      some "Latest year in data: 2020"
    ∧ (yearColOf d = some yc →
        hasKw (strLower q) "year" = true →
        hasKw (strLower q) "latest" = true →
        seriesMax (colOf d yc) = some m →
        (hasKw (strLower q) "trend" = false ∨ trendGroupOf d = none ∨
          (changePctOf d).isSome = true) →
        answer d q = some ("Latest year in data: " ++ toString (truncInt m)))
    ∧ (hasKw (strLower q) "average" = false → hasKw (strLower q) "mean" = false →
        hasKw (strLower q) "total" = false → hasKw (strLower q) "sum" = false →
        hasKw (strLower q) "max" = false → hasKw (strLower q) "highest" = false →
        hasKw (strLower q) "min" = false → hasKw (strLower q) "lowest" = false →
        hasKw (strLower q) "trend" = false → hasKw (strLower q) "year" = false →
        answer d q = some defaultAnswer) := by
  refine ⟨answer_avg_example, answer_latest_example, ?_, ?_⟩
  · intro hyc hy hl hm hdis
    show (match trendAnswer d (strLower q) (valueAnswer d (strLower q)) with
      | none => none
      | some a2 => yearAnswer d (strLower q) a2) = _
    have hta : ∃ a2, trendAnswer d (strLower q) (valueAnswer d (strLower q)) = some a2 := by
      rcases hdis with h | h | h
      · exact ⟨valueAnswer d (strLower q), by simp [trendAnswer, h]⟩
      · exact ⟨valueAnswer d (strLower q), by simp [trendAnswer, h]⟩
      · obtain ⟨c, hc⟩ := Option.isSome_iff_exists.1 h
        by_cases ht : (hasKw (strLower q) "trend" && (trendGroupOf d).isSome) = true
        · exact ⟨_, by rw [trendAnswer, if_pos ht, hc]⟩
        · exact ⟨_, by rw [trendAnswer, if_neg ht]⟩
    obtain ⟨a2, hta⟩ := hta
    rw [hta]
    show yearAnswer d (strLower q) a2 = _
    rw [yearAnswer, hyc]
    simp [hy, hl, hm]
  · intro h1 h2 h3 h4 h5 h6 h7 h8 h9 h10
    show (match trendAnswer d (strLower q) (valueAnswer d (strLower q)) with
      | none => none
      | some a2 => yearAnswer d (strLower q) a2) = _
    have hva : valueAnswer d (strLower q) = defaultAnswer := by
      rw [valueAnswer]
      cases hvc : valueColOf d with
      | none => rfl
      | some vc => simp [h1, h2, h3, h4, h5, h6, h7, h8]
    have hta : trendAnswer d (strLower q) defaultAnswer = some defaultAnswer := by
      rw [trendAnswer]
      simp [h9]
    rw [hva, hta]
    show yearAnswer d (strLower q) defaultAnswer = _
    rw [yearAnswer]
    cases hyc : yearColOf d with
    | none => rfl
    | some yc2 => simp [h10]

/-- C7 witness: the year rule applied to `"latest year"` over years
`[1999, 2020, 2005]`, and the default answer for `"hello"`, both through
the precedence theorem. -/
theorem c7_query_precedence_witness :
    answer [("Year", [some 1999, some 2020, some 2005])] "latest year" =
      some "Latest year in data: 2020"
    ∧ answer [("Year", [some 1999, some 2020, some 2005])] "hello" = some defaultAnswer := by
  constructor
  · have hm : seriesMax (colOf [("Year", [some 1999, some 2020, some 2005])] "Year") =
        some 2020 := by
      have h : validVals (colOf [("Year", [some 1999, some 2020, some 2005])] "Year") =
          [1999, 2020, 2005] := rfl
      simp only [seriesMax, h, List.foldl]
      norm_num
    have h := (c7_query_precedence [("Year", [some 1999, some 2020, some 2005])]
      "latest year" "Year" 2020).2.2.1 rfl rfl rfl hm (Or.inr (Or.inl rfl))
    rw [h]
    have ht : truncInt (2020 : ℚ) = 2020 := by norm_num [truncInt]
    rw [ht]
    rfl
  · exact (c7_query_precedence [("Year", [some 1999, some 2020, some 2005])]
      "hello" "Year" 0).2.2.2 rfl rfl rfl rfl rfl rfl rfl rfl rfl rfl
